import Mathlib

/-!
Shallow embedding of the tf2_geometry_msgs frame-transform adapter
(`tf2_geometry_msgs/include/tf2_geometry_msgs/tf2_geometry_msgs.h`).

Message fields use exact rational arithmetic in place of IEEE doubles.
The external kinematics library's rigid-transform values (3x3 rotation
matrix plus translation vector, built from a transform message by
`gmTransformToKDL`) are modelled per the specification's contract for
that library (spec s4.1): the rotation matrix is derived from the
quaternion by the homogeneous quaternion-to-matrix formula, which is the
standard rotation matrix for unit quaternions and a non-rigid scaled
map for non-unit quaternions, exactly as the spec describes.  The
library's matrix-to-quaternion extraction (used only for the pose
orientation output) is outside this repository; the embedding therefore
keeps the orientation of a transformed pose in matrix form, i.e. as the
rotation that the extracted quaternion represents.
-/

namespace TF2Geo

/-- Message time: seconds and nanoseconds, as in the middleware's time message. -/
structure Time where
  sec : ℤ
  nanosec : ℕ
deriving DecidableEq

/-- The adapter's canonical time representation (`tf2::TimePoint`), in nanoseconds. -/
abbrev TimePoint := ℤ

/-- Modelled from the spec: `tf2_ros::fromMsg` on a message time, the
conversion to the adapter's canonical time representation (spec s4.2).
It lives in the repository's `tf2_ros` package, not under the sources here. -/
def timeFromMsg (t : Time) : TimePoint := t.sec * 1000000000 + (t.nanosec : ℤ)

/-- Message header: timestamp and frame identifier. -/
structure Header where
  stamp : Time
  frame_id : String
deriving DecidableEq

/-- geometry_msgs Vector3: a free 3-vector. -/
structure Vector3 where
  x : ℚ
  y : ℚ
  z : ℚ
deriving DecidableEq

/-- geometry_msgs Quaternion, stored (x, y, z, w). -/
structure Quaternion where
  x : ℚ
  y : ℚ
  z : ℚ
  w : ℚ
deriving DecidableEq

/-- geometry_msgs Point: a position, same shape as Vector3. -/
structure Point where
  x : ℚ
  y : ℚ
  z : ℚ
deriving DecidableEq

/-- geometry_msgs Transform: translation plus rotation quaternion. -/
structure Transform where
  translation : Vector3
  rotation : Quaternion
deriving DecidableEq

/-- geometry_msgs TransformStamped. -/
structure TransformStamped where
  header : Header
  transform : Transform
deriving DecidableEq

/-- geometry_msgs Vector3Stamped. -/
structure Vector3Stamped where
  header : Header
  vector : Vector3
deriving DecidableEq

/-- geometry_msgs PointStamped. -/
structure PointStamped where
  header : Header
  point : Point
deriving DecidableEq

/-- geometry_msgs Pose: position plus orientation quaternion. -/
structure Pose where
  position : Point
  orientation : Quaternion
deriving DecidableEq

/-- geometry_msgs PoseStamped. -/
structure PoseStamped where
  header : Header
  pose : Pose
deriving DecidableEq

/-- geometry_msgs PoseWithCovariance: pose plus the flat 36-element
row-major covariance array. -/
structure PoseWithCovariance where
  pose : Pose
  covariance : Fin 36 → ℚ

/-- geometry_msgs PoseWithCovarianceStamped. -/
structure PoseWithCovarianceStamped where
  header : Header
  pose : PoseWithCovariance

/-- geometry_msgs Wrench: force and torque, both free vectors. -/
structure Wrench where
  force : Vector3
  torque : Vector3
deriving DecidableEq

/-- geometry_msgs WrenchStamped. -/
structure WrenchStamped where
  header : Header
  wrench : Wrench
deriving DecidableEq

/-- The external kinematics library's 3x3 rotation value; entry `Ab` is
row A, column b (rows X, Y, Z). -/
structure Rotation where
  Xx : ℚ
  Xy : ℚ
  Xz : ℚ
  Yx : ℚ
  Yy : ℚ
  Yz : ℚ
  Zx : ℚ
  Zy : ℚ
  Zz : ℚ
deriving DecidableEq

/-- Matrix-vector application `M * v` of the external library. -/
def Rotation.apply (M : Rotation) (v : Vector3) : Vector3 :=
  ⟨M.Xx * v.x + M.Xy * v.y + M.Xz * v.z,
   M.Yx * v.x + M.Yy * v.y + M.Yz * v.z,
   M.Zx * v.x + M.Zy * v.y + M.Zz * v.z⟩

/-- Matrix-matrix product `A * B` of the external library. -/
def Rotation.mul (A B : Rotation) : Rotation :=
  ⟨A.Xx * B.Xx + A.Xy * B.Yx + A.Xz * B.Zx,
   A.Xx * B.Xy + A.Xy * B.Yy + A.Xz * B.Zy,
   A.Xx * B.Xz + A.Xy * B.Yz + A.Xz * B.Zz,
   A.Yx * B.Xx + A.Yy * B.Yx + A.Yz * B.Zx,
   A.Yx * B.Xy + A.Yy * B.Yy + A.Yz * B.Zy,
   A.Yx * B.Xz + A.Yy * B.Yz + A.Yz * B.Zz,
   A.Zx * B.Xx + A.Zy * B.Yx + A.Zz * B.Zx,
   A.Zx * B.Xy + A.Zy * B.Yy + A.Zz * B.Zy,
   A.Zx * B.Xz + A.Zy * B.Yz + A.Zz * B.Zz⟩

/-- Modelled from the spec (s4.1): the external library's construction of
a 3x3 rotation matrix from a quaternion (x, y, z, w), via the homogeneous
quaternion-to-matrix formula.  For a unit quaternion this is the standard
rotation matrix; a non-unit quaternion silently produces a non-rigid
(uniformly scaled) matrix, as the spec notes. -/
def quatToRot (q : Quaternion) : Rotation :=
  ⟨q.w ^ 2 + q.x ^ 2 - q.y ^ 2 - q.z ^ 2,
   2 * q.x * q.y - 2 * q.w * q.z,
   2 * q.x * q.z + 2 * q.w * q.y,
   2 * q.x * q.y + 2 * q.w * q.z,
   q.w ^ 2 - q.x ^ 2 + q.y ^ 2 - q.z ^ 2,
   2 * q.y * q.z - 2 * q.w * q.x,
   2 * q.x * q.z - 2 * q.w * q.y,
   2 * q.y * q.z + 2 * q.w * q.x,
   q.w ^ 2 - q.x ^ 2 - q.y ^ 2 + q.z ^ 2⟩

/-- Component-wise vector addition of the external library. -/
def Vector3.add (a b : Vector3) : Vector3 := ⟨a.x + b.x, a.y + b.y, a.z + b.z⟩

/-- The external library's rigid-frame value: rotation matrix `M` and
translation vector `p`. -/
structure Frame where
  M : Rotation
  p : Vector3

/-- Frame application to a vector: `F * v = M * v + p`. -/
def Frame.applyVec (f : Frame) (v : Vector3) : Vector3 :=
  Vector3.add (Rotation.apply f.M v) f.p

/-- Frame composition: `F1 * F2 = (M1 * M2, M1 * p2 + p1)`. -/
def Frame.comp (f g : Frame) : Frame :=
  ⟨Rotation.mul f.M g.M, Vector3.add (Rotation.apply f.M g.p) f.p⟩

/-- `gmTransformToKDL`: convert a TransformStamped message to the external
library's frame value, from the transform's rotation quaternion and
translation vector. -/
def gmTransformToKDL (t : TransformStamped) : Frame :=
  ⟨quatToRot t.transform.rotation,
   ⟨t.transform.translation.x, t.transform.translation.y, t.transform.translation.z⟩⟩

/-- `doTransform` for an unstamped Vector3: `v_out = gmTransformToKDL(transform).M * v_in`,
rotation only, then the three components are written back. -/
def Vector3.doTransform (t_in : Vector3) (transform : TransformStamped) : Vector3 :=
  let v_out := Rotation.apply (gmTransformToKDL transform).M ⟨t_in.x, t_in.y, t_in.z⟩
  ⟨v_out.x, v_out.y, v_out.z⟩

/-- `getTimestamp` for Vector3Stamped: `tf2_ros::fromMsg(t.header.stamp)`. -/
def Vector3Stamped.getTimestamp (t : Vector3Stamped) : TimePoint := timeFromMsg t.header.stamp

/-- `getFrameId` for Vector3Stamped: `t.header.frame_id`. -/
def Vector3Stamped.getFrameId (t : Vector3Stamped) : String := t.header.frame_id

/-- `doTransform` for Vector3Stamped: delegate to the Vector3 rule on the
inner vector, then overwrite the header fields from the transform. -/
def Vector3Stamped.doTransform (t_in : Vector3Stamped) (transform : TransformStamped) :
    Vector3Stamped :=
  { vector := Vector3.doTransform t_in.vector transform
    header := ⟨transform.header.stamp, transform.header.frame_id⟩ }

/-- `toMsg` for Vector3Stamped: returns the input argument. -/
def Vector3Stamped.toMsg (t_in : Vector3Stamped) : Vector3Stamped := t_in

/-- `fromMsg` for Vector3Stamped: `out = msg`. -/
def Vector3Stamped.fromMsg (msg : Vector3Stamped) : Vector3Stamped := msg

/-- `getTimestamp` for PointStamped: `tf2_ros::fromMsg(t.header.stamp)`. -/
def PointStamped.getTimestamp (t : PointStamped) : TimePoint := timeFromMsg t.header.stamp

/-- `getFrameId` for PointStamped: `t.header.frame_id`. -/
def PointStamped.getFrameId (t : PointStamped) : String := t.header.frame_id

/-- `doTransform` for PointStamped:
`v_out = gmTransformToKDL(transform) * v_in` (full frame application,
rotation then translation), components written back, header fields
overwritten from the transform. -/
def PointStamped.doTransform (t_in : PointStamped) (transform : TransformStamped) :
    PointStamped :=
  let v_out := Frame.applyVec (gmTransformToKDL transform)
    ⟨t_in.point.x, t_in.point.y, t_in.point.z⟩
  { point := ⟨v_out.x, v_out.y, v_out.z⟩
    header := ⟨transform.header.stamp, transform.header.frame_id⟩ }

/-- `toMsg` for PointStamped: returns the input argument. -/
def PointStamped.toMsg (t_in : PointStamped) : PointStamped := t_in

/-- `fromMsg` for PointStamped: `out = msg`. -/
def PointStamped.fromMsg (msg : PointStamped) : PointStamped := msg

/-- `getTimestamp` for PoseStamped: `tf2_ros::fromMsg(t.header.stamp)`. -/
def PoseStamped.getTimestamp (t : PoseStamped) : TimePoint := timeFromMsg t.header.stamp

/-- `getFrameId` for PoseStamped: `t.header.frame_id`. -/
def PoseStamped.getFrameId (t : PoseStamped) : String := t.header.frame_id

/-- A transformed pose with the orientation kept as the external library's
rotation matrix.  The source builds `v_out = gmTransformToKDL(transform) * Frame(r, v)`
and then writes `v_out.M.GetQuaternion(...)` into the output orientation;
`GetQuaternion` is the external library's matrix-to-quaternion extraction
(outside this repository), so the embedding keeps `v_out.M` itself — the
rotation the output quaternion represents. -/
structure PoseMat where
  position : Point
  M : Rotation
deriving DecidableEq

/-- A PoseStamped result with matrix-form orientation (see `PoseMat`). -/
structure PoseMatStamped where
  header : Header
  pose : PoseMat
deriving DecidableEq

/-- `doTransform` for PoseStamped: build the input frame from the pose's
position and orientation quaternion, compose
`v_out = gmTransformToKDL(transform) * Frame(r, v)`, write back the
position components and the orientation (kept as `v_out.M`, the rotation
the extracted quaternion represents), and overwrite the header fields
from the transform. -/
def PoseStamped.doTransform (t_in : PoseStamped) (transform : TransformStamped) :
    PoseMatStamped :=
  let v : Vector3 := ⟨t_in.pose.position.x, t_in.pose.position.y, t_in.pose.position.z⟩
  let r : Rotation := quatToRot t_in.pose.orientation
  let v_out := Frame.comp (gmTransformToKDL transform) ⟨r, v⟩
  { pose := { position := ⟨v_out.p.x, v_out.p.y, v_out.p.z⟩, M := v_out.M }
    header := ⟨transform.header.stamp, transform.header.frame_id⟩ }

/-- `toMsg` for PoseStamped: returns the input argument. -/
def PoseStamped.toMsg (t_in : PoseStamped) : PoseStamped := t_in

/-- `fromMsg` for PoseStamped: `out = msg`. -/
def PoseStamped.fromMsg (msg : PoseStamped) : PoseStamped := msg

/-- `getTimestamp` for PoseWithCovarianceStamped: `tf2_ros::fromMsg(t.header.stamp)`. -/
def PoseWithCovarianceStamped.getTimestamp (t : PoseWithCovarianceStamped) : TimePoint :=
  timeFromMsg t.header.stamp

/-- `getFrameId` for PoseWithCovarianceStamped: `t.header.frame_id`. -/
def PoseWithCovarianceStamped.getFrameId (t : PoseWithCovarianceStamped) : String :=
  t.header.frame_id

/-- Modelled from the spec (s4.4): `covarianceRowMajorToNested`, defined in
the repository's `tf2/convert.h` (not under the sources here): reshape the
flat 36-element row-major array into 6 rows of 6 columns, row `i` being
elements `6i .. 6i+5`. -/
def covarianceRowMajorToNested (c : Fin 36 → ℚ) : Fin 6 → Fin 6 → ℚ :=
  fun i j => c ⟨6 * i.val + j.val, by have hi := i.isLt; have hj := j.isLt; omega⟩

/-- `getCovarianceMatrix` for PoseWithCovarianceStamped:
`covarianceRowMajorToNested(t.pose.covariance)`. -/
def PoseWithCovarianceStamped.getCovarianceMatrix (t : PoseWithCovarianceStamped) :
    Fin 6 → Fin 6 → ℚ :=
  covarianceRowMajorToNested t.pose.covariance

/-- Flatten a nested 6x6 matrix back to row-major order (the inverse
reading of `covarianceRowMajorToNested`, used to state the round-trip). -/
def flattenCovariance (m : Fin 6 → Fin 6 → ℚ) : Fin 36 → ℚ :=
  fun k => m ⟨k.val / 6, by have hk := k.isLt; omega⟩ ⟨k.val % 6, by omega⟩

/-- Hamilton product of two quaternions stored (x, y, z, w); the rotation
composition `R(p) * R(q) = R(p * q)` used to state pose-orientation and
transform composition. -/
def qmul (p q : Quaternion) : Quaternion :=
  ⟨p.w * q.x + p.x * q.w + p.y * q.z - p.z * q.y,
   p.w * q.y - p.x * q.z + p.y * q.w + p.z * q.x,
   p.w * q.z + p.x * q.y - p.y * q.x + p.z * q.w,
   p.w * q.w - p.x * q.x - p.y * q.y - p.z * q.z⟩

/-- Modelled from the spec (s2, s4.3, s8): `doTransform` for
PoseWithCovarianceStamped.  This specialization lives in the repository's
non-obsolete header `tf2_geometry_msgs.hpp` (which the `#warning` in the
source points at), not under the sources here.  Per the spec it applies
the pose rule — full rigid transform on the position, rotation
composition on the orientation — and overwrites the header from the
transform; the spec gives no rule for the covariance array, so it is
carried through unchanged. -/
def PoseWithCovarianceStamped.doTransform (t_in : PoseWithCovarianceStamped)
    (transform : TransformStamped) : PoseWithCovarianceStamped :=
  let v_out := Frame.applyVec (gmTransformToKDL transform)
    ⟨t_in.pose.pose.position.x, t_in.pose.pose.position.y, t_in.pose.pose.position.z⟩
  { pose :=
      { pose :=
          { position := ⟨v_out.x, v_out.y, v_out.z⟩
            orientation := qmul transform.transform.rotation t_in.pose.pose.orientation }
        covariance := t_in.pose.covariance }
    header := ⟨transform.header.stamp, transform.header.frame_id⟩ }

/-- Modelled from the spec (s4.5): `toMsg` for PoseWithCovarianceStamped is
an identity conversion; it lives in the repository's non-obsolete header
`tf2_geometry_msgs.hpp`, not under the sources here. -/
def PoseWithCovarianceStamped.toMsg (t_in : PoseWithCovarianceStamped) :
    PoseWithCovarianceStamped := t_in

/-- Modelled from the spec (s4.5): `fromMsg` for PoseWithCovarianceStamped
is an identity conversion (`out = msg`); it lives in the repository's
non-obsolete header `tf2_geometry_msgs.hpp`, not under the sources here. -/
def PoseWithCovarianceStamped.fromMsg (msg : PoseWithCovarianceStamped) :
    PoseWithCovarianceStamped := msg

/-- `getTimestamp` for WrenchStamped: `tf2_ros::fromMsg(t.header.stamp)`. -/
def WrenchStamped.getTimestamp (t : WrenchStamped) : TimePoint := timeFromMsg t.header.stamp

/-- `getFrameId` for WrenchStamped: `t.header.frame_id`. -/
def WrenchStamped.getFrameId (t : WrenchStamped) : String := t.header.frame_id

/-- `doTransform` for an unstamped Wrench: apply the Vector3 rule
independently to the force and to the torque. -/
def Wrench.doTransform (t_in : Wrench) (transform : TransformStamped) : Wrench :=
  { force := Vector3.doTransform t_in.force transform
    torque := Vector3.doTransform t_in.torque transform }

/-- `doTransform` for WrenchStamped: delegate to the Wrench rule on the
inner wrench, then overwrite the header fields from the transform. -/
def WrenchStamped.doTransform (t_in : WrenchStamped) (transform : TransformStamped) :
    WrenchStamped :=
  { wrench := Wrench.doTransform t_in.wrench transform
    header := ⟨transform.header.stamp, transform.header.frame_id⟩ }

/-- `toMsg` for WrenchStamped: returns the input argument. -/
def WrenchStamped.toMsg (t_in : WrenchStamped) : WrenchStamped := t_in

/-- `fromMsg` for WrenchStamped: `out = msg`. -/
def WrenchStamped.fromMsg (msg : WrenchStamped) : WrenchStamped := msg

/-- A quaternion of unit norm (the data-model invariant of spec s3). -/
def unitQuat (q : Quaternion) : Prop :=
  q.x ^ 2 + q.y ^ 2 + q.z ^ 2 + q.w ^ 2 = 1

instance (q : Quaternion) : Decidable (unitQuat q) := by
  unfold unitQuat; infer_instance

/-- Modelled from the spec (s4.1, s8): composition of two stamped
transforms `T2 compose T1`, expressed back as a transform message: the
rotation quaternions compose by the quaternion product and the
translation is `R(T2) * t1 + t2` (the external library's frame
composition applied to the message fields); the header is taken from the
outer transform `T2`. -/
def TransformStamped.compose (t2 t1 : TransformStamped) : TransformStamped :=
  { header := t2.header
    transform :=
      { translation := Vector3.add
          (Rotation.apply (quatToRot t2.transform.rotation) t1.transform.translation)
          t2.transform.translation
        rotation := qmul t2.transform.rotation t1.transform.rotation } }

/-- Reading a Point as a bare 3-vector (the source passes the three
coordinates to the external library's vector constructor). -/
def Point.toVec (p : Point) : Vector3 := ⟨p.x, p.y, p.z⟩

/-- Writing a bare 3-vector back into a Point message. -/
def Vector3.toPoint (v : Vector3) : Point := ⟨v.x, v.y, v.z⟩

/-- The homogeneous quaternion-to-matrix map turns the quaternion product
into the matrix product (identically, for all quaternions, unit or not). -/
theorem quatToRot_qmul (p q : Quaternion) :
    quatToRot (qmul p q) = Rotation.mul (quatToRot p) (quatToRot q) := by
  obtain ⟨px, py, pz, pw⟩ := p
  obtain ⟨qx, qy, qz, qw⟩ := q
  simp only [qmul, quatToRot, Rotation.mul, Rotation.mk.injEq]
  refine ⟨?_, ?_, ?_, ?_, ?_, ?_, ?_, ?_, ?_⟩ <;> ring

/-- C1: doTransform on a PointStamped returns the full rigid transform of
the source point — the rotation matrix derived from the transform's
rotation quaternion applied to the point, plus the transform's
translation — and overwrites both header fields (timestamp and frame_id)
with the transform's header values, regardless of the source's header. -/
theorem doTransform_pointStamped_rigid (p : PointStamped) (T : TransformStamped) :
    (PointStamped.doTransform p T).point =
      Vector3.toPoint (Vector3.add
        (Rotation.apply (quatToRot T.transform.rotation) p.point.toVec)
        T.transform.translation) ∧
    (PointStamped.doTransform p T).header.stamp = T.header.stamp ∧
    (PointStamped.doTransform p T).header.frame_id = T.header.frame_id :=
  ⟨rfl, rfl, rfl⟩

/-- C2: doTransform on an unstamped Vector3 applies only the rotation
matrix derived from the transform's rotation quaternion, ignoring the
translation entirely; in particular any transform whose rotation is the
identity quaternion leaves the vector unchanged, whatever its
translation. -/
theorem doTransform_vector3_rotation_only (v : Vector3) (T : TransformStamped) :
    Vector3.doTransform v T = Rotation.apply (quatToRot T.transform.rotation) v ∧
    (T.transform.rotation = ⟨0, 0, 0, 1⟩ → Vector3.doTransform v T = v) := by
  refine ⟨rfl, fun h => ?_⟩
  obtain ⟨x, y, z⟩ := v
  simp only [Vector3.doTransform, gmTransformToKDL, Rotation.apply, quatToRot, h,
    Vector3.mk.injEq]
  norm_num

/-- C2 witness: a transform with identity rotation and non-zero
translation leaves the concrete vector (4, 5, 6) unchanged. -/
theorem doTransform_vector3_rotation_only_witness :
    Vector3.doTransform ⟨4, 5, 6⟩ ⟨⟨⟨7, 8⟩, "b"⟩, ⟨⟨1, 2, 3⟩, ⟨0, 0, 0, 1⟩⟩⟩ = ⟨4, 5, 6⟩ :=
  (doTransform_vector3_rotation_only ⟨4, 5, 6⟩ ⟨⟨⟨7, 8⟩, "b"⟩, ⟨⟨1, 2, 3⟩, ⟨0, 0, 0, 1⟩⟩⟩).2 rfl

/-- C3: doTransform on a Vector3Stamped applies the unstamped Vector3
rotation-only rule to the inner vector and overwrites both header fields
with the transform's header values. -/
theorem doTransform_vector3Stamped_header_overwrite (s : Vector3Stamped)
    (T : TransformStamped) :
    (Vector3Stamped.doTransform s T).vector = Vector3.doTransform s.vector T ∧
    (Vector3Stamped.doTransform s T).header.stamp = T.header.stamp ∧
    (Vector3Stamped.doTransform s T).header.frame_id = T.header.frame_id :=
  ⟨rfl, rfl, rfl⟩

/-- C4: doTransform on a PoseStamped applies the full rigid transform to
the position (`R * p + t`), produces as orientation the composed rotation
`R(transform) * R(q)` — equivalently the rotation of the quaternion
product of the transform's rotation with the source orientation, so the
translation does not affect it — and overwrites the header from the
transform. -/
theorem doTransform_poseStamped_correct (p : PoseStamped) (T : TransformStamped) :
    (PoseStamped.doTransform p T).pose.position =
      Vector3.toPoint (Vector3.add
        (Rotation.apply (quatToRot T.transform.rotation) p.pose.position.toVec)
        T.transform.translation) ∧
    (PoseStamped.doTransform p T).pose.M =
      Rotation.mul (quatToRot T.transform.rotation) (quatToRot p.pose.orientation) ∧
    (PoseStamped.doTransform p T).pose.M =
      quatToRot (qmul T.transform.rotation p.pose.orientation) ∧
    (PoseStamped.doTransform p T).header.stamp = T.header.stamp ∧
    (PoseStamped.doTransform p T).header.frame_id = T.header.frame_id :=
  ⟨rfl, rfl, (quatToRot_qmul T.transform.rotation p.pose.orientation).symm, rfl, rfl⟩

/-- C5: doTransform on an unstamped Wrench applies the rotation-only
Vector3 rule independently to the force and to the torque (translation
applied to neither), and doTransform on a WrenchStamped applies that
Wrench rule to the inner wrench and overwrites the header from the
transform. -/
theorem doTransform_wrench_rotation_only (w : Wrench) (ws : WrenchStamped)
    (T : TransformStamped) :
    (Wrench.doTransform w T).force = Rotation.apply (quatToRot T.transform.rotation) w.force ∧
    (Wrench.doTransform w T).torque = Rotation.apply (quatToRot T.transform.rotation) w.torque ∧
    (WrenchStamped.doTransform ws T).wrench = Wrench.doTransform ws.wrench T ∧
    (WrenchStamped.doTransform ws T).header.stamp = T.header.stamp ∧
    (WrenchStamped.doTransform ws T).header.frame_id = T.header.frame_id :=
  ⟨rfl, rfl, rfl, rfl, rfl⟩

/-- C6: for each of the five supported stamped quantity types the adapter
provides a timestamp accessor (returning the header timestamp converted
to the canonical time representation), a frame-identifier accessor
(returning the header frame_id), and a transform-application function
(whose result carries the transform's header). -/
theorem adapter_stamped_api_complete :
    (∀ (a : Vector3Stamped) (T : TransformStamped),
      Vector3Stamped.getTimestamp a = timeFromMsg a.header.stamp ∧
      Vector3Stamped.getFrameId a = a.header.frame_id ∧
      (Vector3Stamped.doTransform a T).header = T.header) ∧
    (∀ (b : PointStamped) (T : TransformStamped),
      PointStamped.getTimestamp b = timeFromMsg b.header.stamp ∧
      PointStamped.getFrameId b = b.header.frame_id ∧
      (PointStamped.doTransform b T).header = T.header) ∧
    (∀ (c : PoseStamped) (T : TransformStamped),
      PoseStamped.getTimestamp c = timeFromMsg c.header.stamp ∧
      PoseStamped.getFrameId c = c.header.frame_id ∧
      (PoseStamped.doTransform c T).header = T.header) ∧
    (∀ (d : PoseWithCovarianceStamped) (T : TransformStamped),
      PoseWithCovarianceStamped.getTimestamp d = timeFromMsg d.header.stamp ∧
      PoseWithCovarianceStamped.getFrameId d = d.header.frame_id ∧
      (PoseWithCovarianceStamped.doTransform d T).header = T.header) ∧
    (∀ (e : WrenchStamped) (T : TransformStamped),
      WrenchStamped.getTimestamp e = timeFromMsg e.header.stamp ∧
      WrenchStamped.getFrameId e = e.header.frame_id ∧
      (WrenchStamped.doTransform e T).header = T.header) :=
  ⟨fun _ _ => ⟨rfl, rfl, rfl⟩, fun _ _ => ⟨rfl, rfl, rfl⟩, fun _ _ => ⟨rfl, rfl, rfl⟩,
   fun _ _ => ⟨rfl, rfl, rfl⟩, fun _ _ => ⟨rfl, rfl, rfl⟩⟩

/-- C7: toMsg and fromMsg are identity operations for all five stamped
types, so fromMsg composed with toMsg is the identity on each. -/
theorem toMsg_fromMsg_identity :
    (∀ x : Vector3Stamped, Vector3Stamped.fromMsg (Vector3Stamped.toMsg x) = x) ∧
    (∀ x : PointStamped, PointStamped.fromMsg (PointStamped.toMsg x) = x) ∧
    (∀ x : PoseStamped, PoseStamped.fromMsg (PoseStamped.toMsg x) = x) ∧
    (∀ x : PoseWithCovarianceStamped,
      PoseWithCovarianceStamped.fromMsg (PoseWithCovarianceStamped.toMsg x) = x) ∧
    (∀ x : WrenchStamped, WrenchStamped.fromMsg (WrenchStamped.toMsg x) = x) :=
  ⟨fun _ => rfl, fun _ => rfl, fun _ => rfl, fun _ => rfl, fun _ => rfl⟩

/-- Flattening the nested 6x6 reshape back to row-major order reproduces
the flat array (shared helper for the covariance round-trip). -/
theorem flatten_covarianceRowMajorToNested (c : Fin 36 → ℚ) :
    flattenCovariance (covarianceRowMajorToNested c) = c := by
  funext k
  have hk : 6 * (k.val / 6) + k.val % 6 = k.val := by omega
  simp only [flattenCovariance, covarianceRowMajorToNested]
  congr 1
  exact Fin.ext hk

/-- C8: getCovarianceMatrix reshapes the flat 36-element row-major
covariance array into a 6x6 matrix whose row `i`, column `j` entry is
element `6*i + j` of the array, with no validation, and flattening the
result back to row-major order reproduces the original array exactly. -/
theorem getCovarianceMatrix_rowMajor_roundTrip (t : PoseWithCovarianceStamped) :
    (∀ i j : Fin 6,
      PoseWithCovarianceStamped.getCovarianceMatrix t i j =
        t.pose.covariance ⟨6 * i.val + j.val, by have hi := i.isLt; have hj := j.isLt; omega⟩) ∧
    flattenCovariance (PoseWithCovarianceStamped.getCovarianceMatrix t) = t.pose.covariance :=
  ⟨fun _ _ => rfl, flatten_covarianceRowMajorToNested t.pose.covariance⟩

/-- C9: for unit rotation quaternions, transforming a point by T1 and then
by T2 yields the same point as transforming once by the composed
transform T2 after T1 (exactly, over the embedding's exact arithmetic). -/
theorem doTransform_point_compose (p : PointStamped) (T1 T2 : TransformStamped)
    (h1 : unitQuat T1.transform.rotation) (h2 : unitQuat T2.transform.rotation) :
    (PointStamped.doTransform (PointStamped.doTransform p T1) T2).point =
      (PointStamped.doTransform p (TransformStamped.compose T2 T1)).point := by
  obtain ⟨_, ⟨x, y, z⟩⟩ := p
  obtain ⟨_, ⟨⟨t1x, t1y, t1z⟩, ⟨q1x, q1y, q1z, q1w⟩⟩⟩ := T1
  obtain ⟨_, ⟨⟨t2x, t2y, t2z⟩, ⟨q2x, q2y, q2z, q2w⟩⟩⟩ := T2
  simp only [PointStamped.doTransform, TransformStamped.compose, gmTransformToKDL,
    Frame.applyVec, Rotation.apply, quatToRot, qmul, Vector3.add, Point.toVec,
    Vector3.toPoint, Point.mk.injEq]
  refine ⟨?_, ?_, ?_⟩ <;> ring

/-- C9 witness: sequential and composed application agree on the concrete
point (1, 2, 3) under two concrete unit-quaternion transforms (half-turns
about the x and the y axis, with distinct translations and headers). -/
theorem doTransform_point_compose_witness :
    unitQuat (⟨1, 0, 0, 0⟩ : Quaternion) ∧
    unitQuat (⟨0, 1, 0, 0⟩ : Quaternion) ∧
    (PointStamped.doTransform
        (PointStamped.doTransform ⟨⟨⟨0, 0⟩, "a"⟩, ⟨1, 2, 3⟩⟩
          ⟨⟨⟨1, 0⟩, "b"⟩, ⟨⟨4, 5, 6⟩, ⟨1, 0, 0, 0⟩⟩⟩)
        ⟨⟨⟨2, 0⟩, "c"⟩, ⟨⟨7, 8, 9⟩, ⟨0, 1, 0, 0⟩⟩⟩).point =
      (PointStamped.doTransform ⟨⟨⟨0, 0⟩, "a"⟩, ⟨1, 2, 3⟩⟩
        (TransformStamped.compose ⟨⟨⟨2, 0⟩, "c"⟩, ⟨⟨7, 8, 9⟩, ⟨0, 1, 0, 0⟩⟩⟩
          ⟨⟨⟨1, 0⟩, "b"⟩, ⟨⟨4, 5, 6⟩, ⟨1, 0, 0, 0⟩⟩⟩)).point :=
  ⟨by simp [unitQuat], by simp [unitQuat],
   doTransform_point_compose ⟨⟨⟨0, 0⟩, "a"⟩, ⟨1, 2, 3⟩⟩
     ⟨⟨⟨1, 0⟩, "b"⟩, ⟨⟨4, 5, 6⟩, ⟨1, 0, 0, 0⟩⟩⟩
     ⟨⟨⟨2, 0⟩, "c"⟩, ⟨⟨7, 8, 9⟩, ⟨0, 1, 0, 0⟩⟩⟩ (by simp [unitQuat]) (by simp [unitQuat])⟩

/-- C10: the rotation-only doTransform outputs (unstamped Vector3 and
Wrench) depend only on the transform's rotation quaternion: two
transforms with equal rotations but arbitrarily different translations,
timestamps and frame identifiers produce identical outputs. -/
theorem doTransform_depends_only_on_rotation (v : Vector3) (w : Wrench)
    (T1 T2 : TransformStamped)
    (h : T1.transform.rotation = T2.transform.rotation) :
    Vector3.doTransform v T1 = Vector3.doTransform v T2 ∧
    Wrench.doTransform w T1 = Wrench.doTransform w T2 := by
  have hv : ∀ u : Vector3, Vector3.doTransform u T1 = Vector3.doTransform u T2 := by
    intro u
    simp only [Vector3.doTransform, gmTransformToKDL, h]
  exact ⟨hv v, by simp only [Wrench.doTransform, hv]⟩

/-- C10 witness: two concrete transforms sharing a rotation but differing
in translation, timestamp and frame id give identical outputs on a
concrete vector and wrench. -/
theorem doTransform_depends_only_on_rotation_witness :
    Vector3.doTransform ⟨1, 0, 2⟩
        ⟨⟨⟨0, 0⟩, "a"⟩, ⟨⟨1, 2, 3⟩, ⟨1/2, 1/2, 1/2, 1/2⟩⟩⟩ =
      Vector3.doTransform ⟨1, 0, 2⟩
        ⟨⟨⟨9, 9⟩, "z"⟩, ⟨⟨-4, 0, 7⟩, ⟨1/2, 1/2, 1/2, 1/2⟩⟩⟩ ∧
    Wrench.doTransform ⟨⟨1, 0, 0⟩, ⟨0, 0, 1⟩⟩
        ⟨⟨⟨0, 0⟩, "a"⟩, ⟨⟨1, 2, 3⟩, ⟨1/2, 1/2, 1/2, 1/2⟩⟩⟩ =
      Wrench.doTransform ⟨⟨1, 0, 0⟩, ⟨0, 0, 1⟩⟩
        ⟨⟨⟨9, 9⟩, "z"⟩, ⟨⟨-4, 0, 7⟩, ⟨1/2, 1/2, 1/2, 1/2⟩⟩⟩ :=
  doTransform_depends_only_on_rotation ⟨1, 0, 2⟩ ⟨⟨1, 0, 0⟩, ⟨0, 0, 1⟩⟩
    ⟨⟨⟨0, 0⟩, "a"⟩, ⟨⟨1, 2, 3⟩, ⟨1/2, 1/2, 1/2, 1/2⟩⟩⟩
    ⟨⟨⟨9, 9⟩, "z"⟩, ⟨⟨-4, 0, 7⟩, ⟨1/2, 1/2, 1/2, 1/2⟩⟩⟩ rfl

end TF2Geo
